import Mathlib

/-!
Verification of the AquaHealthOS demo backend against its specification.

The Python sources are shallowly embedded in Lean 4:
* Python floats are modelled as exact rationals (`ℚ`); the arithmetic in the
  risk engine and forecast engine is plain field arithmetic, so the rational
  semantics matches the source formulas exactly.
* Timestamps (`datetime.utcnow()`) are modelled as integers counting seconds;
  `timedelta(minutes=10)` is `600` and `timedelta(hours=h)` is `h * 3600`.
* The SQLAlchemy tables are modelled as lists of records inside a `DB`
  structure; primary keys are allocated from explicit counters; a commit is
  modelled by returning the updated state.
* `dict` results returned to HTTP clients are modelled as association lists
  from `String` keys to a small `Json` value type, and HTTP error responses
  (`HTTPException`) as the `Except` error case carrying the status code.
* Python's `round(x, d)` (round-half-to-even on the value) is modelled by
  `pyRound` over `ℚ`.
-/

/-- Result record of `risk_engine.calculate_risk` (`RiskResult` dataclass). -/
structure RiskResult where
  health_score : ℚ
  do_risk : ℚ
  nh3_risk : ℚ
  messages : List (String × String)
deriving DecidableEq

/-- `risk_engine._clamp` (also duplicated in `main.py` and `forecast.py`):
`max(lo, min(hi, x))`. -/
def _clamp (x lo hi : ℚ) : ℚ := max lo (min hi x)

/-- `risk_engine.calculate_risk`.  The Python parameter `do` is renamed `do_`
because `do` is a Lean keyword.  The mutable `messages` list built by ordered
`append`s is modelled as the concatenation of the dissolved-oxygen block and
the ammonia block. -/
def calculate_risk (do_ temp ammonia ph : ℚ) : RiskResult :=
  let do_risk : ℚ := if do_ < 5 then _clamp ((5 - do_) / 1.5 * 60) 0 100 else 0
  let nh3_proxy : ℚ := max 0 (ammonia * (1 + (ph - 7) * 0.35) * (1 + (temp - 28) * 0.04))
  let nh3_risk : ℚ := _clamp (nh3_proxy * 40) 0 100
  let risk_total : ℚ := 0.6 * do_risk + 0.4 * nh3_risk
  let health_score : ℚ := _clamp (100 - risk_total) 0 100
  let messages : List (String × String) :=
    (if do_ < 3.5 then [("HIGH", "Critical: Dissolved Oxygen dangerously low")]
     else if do_ < 4.5 then [("MEDIUM", "Warning: Dissolved Oxygen low")]
     else []) ++
    (if nh3_proxy > 0.8 then [("HIGH", "Critical: Ammonia stress risk high")]
     else if nh3_proxy > 0.4 then [("MEDIUM", "Warning: Ammonia stress risk rising")]
     else [])
  { health_score := health_score, do_risk := do_risk, nh3_risk := nh3_risk,
    messages := messages }

/-- `risk_engine.status_from_health`. -/
def status_from_health (score : ℚ) : String :=
  if score ≥ 75 then "GOOD" else if score ≥ 50 then "WATCH" else "CRITICAL"

/-- The `Severity` literal type of `schemas.py` (`Literal["LOW","MEDIUM","HIGH"]`),
as the list of admitted severity strings (also the comment on `Alert.severity`
in `models.py`). -/
def Severity : List String := ["LOW", "MEDIUM", "HIGH"]

/-- The two dissolved-oxygen alert texts `calculate_risk` can emit. -/
def doMessages : List String :=
  ["Critical: Dissolved Oxygen dangerously low", "Warning: Dissolved Oxygen low"]

/-- The two ammonia alert texts `calculate_risk` can emit. -/
def ammoniaMessages : List String :=
  ["Critical: Ammonia stress risk high", "Warning: Ammonia stress risk rising"]

/-- Row of the `ponds` table (`models.Pond`). -/
structure Pond where
  id : ℕ
  name : String
  species : String
deriving DecidableEq

/-- Row of the `sensor_readings` table (`models.SensorReading`).
`created_at` is seconds since an arbitrary epoch. -/
structure SensorReading where
  id : ℕ
  pond_id : ℕ
  dissolved_oxygen : ℚ
  temperature : ℚ
  ammonia : ℚ
  ph : ℚ
  turbidity : ℚ
  health_score : ℚ
  do_risk : ℚ
  nh3_risk : ℚ
  created_at : ℤ
deriving DecidableEq, Inhabited

/-- Row of the `alerts` table (`models.Alert`). -/
structure Alert where
  id : ℕ
  pond_id : ℕ
  message : String
  severity : String
  resolved : Bool
  created_at : ℤ
  resolved_at : Option ℤ
deriving DecidableEq, Inhabited

/-- Database state: the three tables plus primary-key counters. -/
structure DB where
  ponds : List Pond
  readings : List SensorReading
  alerts : List Alert
  next_reading_id : ℕ
  next_alert_id : ℕ
deriving DecidableEq

/-- Request body of `POST /api/v1/ingest/reading` (`schemas.ReadingCreate`). -/
structure ReadingCreate where
  pond_id : ℕ
  dissolved_oxygen : ℚ
  temperature : ℚ
  ammonia : ℚ
  ph : ℚ
  turbidity : ℚ
deriving DecidableEq

/-- The pydantic `Field` bounds of `ReadingCreate`: `dissolved_oxygen ≥ 0`,
`temperature ∈ [-5, 60]`, `ammonia ≥ 0`, `ph ∈ [0, 14]`, `turbidity ≥ 0`. -/
def ReadingCreate.valid (p : ReadingCreate) : Prop :=
  0 ≤ p.dissolved_oxygen ∧ -5 ≤ p.temperature ∧ p.temperature ≤ 60 ∧
  0 ≤ p.ammonia ∧ 0 ≤ p.ph ∧ p.ph ≤ 14 ∧ 0 ≤ p.turbidity

/-- JSON values appearing in the ingest response dict. -/
inductive Json where
  | b : Bool → Json
  | n : ℚ → Json
  | s : String → Json
deriving DecidableEq

/-- The pond-existence check of `routes._ensure_pond` /
`main._ensure_pond` (`db.query(Pond).filter(Pond.id == pond_id).first()`). -/
def pondExists (db : DB) (pond_id : ℕ) : Bool :=
  db.ponds.any (fun pond => pond.id == pond_id)

/-- The row predicate of the de-spam query in `routes.ingest_reading` and
`main._create_reading_and_alerts` restricted to the three time-independent
conditions: same pond, same message, `resolved == False`. -/
def isUnresolvedMatch (a : Alert) (pond_id : ℕ) (msg : String) : Bool :=
  a.pond_id == pond_id && a.message == msg && a.resolved == false

/-- The full row predicate of the de-spam query, including
`Alert.created_at >= recent_window` where
`recent_window = now - timedelta(minutes=10)` (600 seconds). -/
def isRecentUnresolvedMatch (a : Alert) (pond_id : ℕ) (msg : String) (now : ℤ) : Bool :=
  isUnresolvedMatch a pond_id msg && decide (now - 600 ≤ a.created_at)

/-- The `.first()` existence check of the de-spam query. -/
def alertExistsRecent (alerts : List Alert) (pond_id : ℕ) (msg : String) (now : ℤ) : Bool :=
  alerts.any (fun a => isRecentUnresolvedMatch a pond_id msg now)

/-- Number of unresolved alerts with the given pond and message text. -/
def countUnresolved (alerts : List Alert) (pond_id : ℕ) (msg : String) : ℕ :=
  (alerts.filter (fun a => isUnresolvedMatch a pond_id msg)).length

/-- The row inserted by `db.add(Alert(pond_id=..., message=msg,
severity=severity))`: `resolved` defaults to `False`, `created_at` to the
current time, `resolved_at` to `NULL`, and the primary key is allocated. -/
def alertNew (db : DB) (pond_id : ℕ) (severity msg : String) (now : ℤ) : Alert :=
  { id := db.next_alert_id, pond_id := pond_id, message := msg,
    severity := severity, resolved := false, created_at := now,
    resolved_at := none }

/-- `db.add(Alert(...)); db.commit()` on the model state. -/
def dbAddAlert (db : DB) (pond_id : ℕ) (severity msg : String) (now : ℤ) : DB :=
  { db with
    alerts := db.alerts ++ [alertNew db pond_id severity msg now],
    next_alert_id := db.next_alert_id + 1 }

/-- The alert-creation loop shared by `routes.ingest_reading` (lines 59-74)
and `main._create_reading_and_alerts` (lines 75-91): for each `(severity,
msg)` emitted by the risk engine, insert a new unresolved alert unless an
unresolved alert with the same pond and message was created within the last
10 minutes. -/
def createAlerts (db : DB) (pond_id : ℕ) (now : ℤ) :
    List (String × String) → DB
  | [] => db
  | (severity, msg) :: rest =>
    let db' := if alertExistsRecent db.alerts pond_id msg now then db
      else dbAddAlert db pond_id severity msg now
    createAlerts db' pond_id now rest

/-- `routes.ingest_reading`: ensure the pond exists (404 otherwise), run the
risk engine, persist the reading with the derived fields, run the de-spam
alert loop, and return the response dict
`{"ok": True, "reading_id": reading.id, "health_score": reading.health_score}`. -/
def ingest_reading (db : DB) (payload : ReadingCreate) (now : ℤ) :
    Except ℕ (DB × List (String × Json)) :=
  if pondExists db payload.pond_id then
    let risk := calculate_risk payload.dissolved_oxygen payload.temperature
      payload.ammonia payload.ph
    let reading : SensorReading :=
      { id := db.next_reading_id, pond_id := payload.pond_id,
        dissolved_oxygen := payload.dissolved_oxygen,
        temperature := payload.temperature, ammonia := payload.ammonia,
        ph := payload.ph, turbidity := payload.turbidity,
        health_score := risk.health_score, do_risk := risk.do_risk,
        nh3_risk := risk.nh3_risk, created_at := now }
    let db1 := { db with
      readings := db.readings ++ [reading],
      next_reading_id := db.next_reading_id + 1 }
    let db2 := createAlerts db1 payload.pond_id now risk.messages
    Except.ok (db2, [("ok", Json.b true), ("reading_id", Json.n reading.id),
      ("health_score", Json.n reading.health_score)])
  else Except.error 404

/-- Database state after an ingest request (unchanged on a 404). -/
def ingestDB (db : DB) (payload : ReadingCreate) (now : ℤ) : DB :=
  match ingest_reading db payload now with
  | Except.ok r => r.1
  | Except.error _ => db

/-- Response body of an ingest request, when it succeeds. -/
def responseOf (e : Except ℕ (DB × List (String × Json))) :
    Option (List (String × Json)) :=
  match e with
  | Except.ok r => some r.2
  | Except.error _ => none

/-- `routes.resolve_alert`: look the alert up by id (404 if absent); if it is
not yet resolved, set `resolved = True` and `resolved_at = utcnow()` and
commit; return the (possibly updated) alert.  Returns the updated table
together with the returned alert. -/
def resolve_alert (alerts : List Alert) (alert_id : ℕ) (now : ℤ) :
    Option (List Alert × Alert) :=
  match alerts.find? (fun a => a.id == alert_id) with
  | none => none
  | some a =>
    if a.resolved then some (alerts, a)
    else
      let a' := { a with resolved := true, resolved_at := some now }
      some (alerts.map (fun b => if b.id == alert_id then a' else b), a')

/-- Python's builtin `round` to an integer: round half to even. -/
def roundHalfToEven (x : ℚ) : ℤ :=
  let f := ⌊x⌋
  if x - f < 1/2 then f
  else if (1/2 : ℚ) < x - f then f + 1
  else if f % 2 = 0 then f else f + 1

/-- Python's `round(x, d)`: round half to even at `d` decimal places. -/
def pyRound (x : ℚ) (d : ℕ) : ℚ :=
  (roundHalfToEven (x * 10 ^ d) : ℚ) / 10 ^ d

/-- `forecast._linreg_slope`: ordinary-least-squares slope of `ys` against
`xs`; `0` when fewer than two points or zero x-variance. -/
def _linreg_slope (xs ys : List ℚ) : ℚ :=
  let n := xs.length
  if n < 2 then 0
  else
    let x_mean := xs.sum / n
    let y_mean := ys.sum / n
    let num := ((xs.zip ys).map (fun p => (p.1 - x_mean) * (p.2 - y_mean))).sum
    let den := (xs.map (fun x => (x - x_mean) ^ 2)).sum
    if den = 0 then 0 else num / den

/-- One projected forecast point (element of the `points` list built by
`forecast.build_forecast`).  Metric fields carry the `round(..., d)` applied
by the source when the dict is built. -/
structure ForecastPoint where
  t : ℤ
  dissolved_oxygen : ℚ
  ammonia : ℚ
  temperature : ℚ
  ph : ℚ
  health_score : ℚ
  do_risk : ℚ
  nh3_risk : ℚ
  status : String
deriving DecidableEq, Inhabited

/-- The `summary` dict of `forecast.build_forecast`.  The empty-history branch
carries a `message` and no slope entries; the non-empty branch carries the
four per-hour slopes and no message. -/
structure ForecastSummary where
  message : Option String
  critical_hours : ℚ
  watch_hours : ℚ
  good_hours : ℚ
  do_slope_per_hour : Option ℚ
  nh3_slope_per_hour : Option ℚ
  temp_slope_per_hour : Option ℚ
  ph_slope_per_hour : Option ℚ
deriving DecidableEq

/-- The dict returned by `forecast.build_forecast`. -/
structure Forecast where
  pond_id : ℕ
  generated_at : ℤ
  hours : ℕ
  step_minutes : ℕ
  points : List ForecastPoint
  summary : ForecastSummary
deriving DecidableEq

/-- Insert a reading into a list sorted by `created_at` descending
(newest first), keeping already-placed newer rows in front. -/
def insertDesc (r : SensorReading) : List SensorReading → List SensorReading
  | [] => [r]
  | x :: xs => if r.created_at ≤ x.created_at then x :: insertDesc r xs
               else r :: x :: xs

/-- Sort readings by `created_at` descending — the
`order_by(desc(SensorReading.created_at))` of the forecast query. -/
def sortDesc : List SensorReading → List SensorReading
  | [] => []
  | r :: rs => insertDesc r (sortDesc rs)

/-- The history query of `forecast.build_forecast` (lines 52-58): readings of
the pond created within the last `lookback_hours` hours, newest first,
limited to `max_points` rows. -/
def forecastRows (readings : List SensorReading) (pond_id : ℕ)
    (lookback_hours max_points : ℕ) (now : ℤ) : List SensorReading :=
  (sortDesc (readings.filter (fun r =>
    r.pond_id == pond_id &&
    decide (now - (lookback_hours : ℤ) * 3600 ≤ r.created_at)))).take max_points

/-- Minutes-since-first-reading x-coordinates (`forecast.build_forecast`
line 80), for the oldest-first row list. -/
def metricXs (rows2 : List SensorReading) : List ℚ :=
  rows2.map (fun r => ((r.created_at - (rows2.headI).created_at : ℤ) : ℚ) / 60)

/-- The body of the projection loop of `forecast.build_forecast` (lines
114-151) for step index `i ≥ 1`: project each metric linearly with the damped
slope over `minutes_ahead = i * step_minutes`, clamp to the plausible ranges,
re-run the risk engine on the clamped projections, and build the point dict
(with the source's `round` calls on the emitted numbers). -/
def forecastPoint (now : ℤ) (step_minutes : ℕ)
    (base_do base_nh3 base_temp base_ph do_slope nh3_slope temp_slope ph_slope : ℚ)
    (i : ℕ) : ForecastPoint :=
  let minutes_ahead : ℚ := (i : ℚ) * (step_minutes : ℚ)
  let t : ℤ := now + (i : ℤ) * (step_minutes : ℤ) * 60
  let pred_do := _clamp (base_do + do_slope * minutes_ahead) 0.2 12
  let pred_nh3 := _clamp (base_nh3 + nh3_slope * minutes_ahead) 0 3
  let pred_temp := _clamp (base_temp + temp_slope * minutes_ahead) 10 40
  let pred_ph := _clamp (base_ph + ph_slope * minutes_ahead) 6 9.5
  let risk := calculate_risk pred_do pred_temp pred_nh3 pred_ph
  let status := status_from_health risk.health_score
  { t := t, dissolved_oxygen := pyRound pred_do 3, ammonia := pyRound pred_nh3 4,
    temperature := pyRound pred_temp 2, ph := pyRound pred_ph 2,
    health_score := pyRound risk.health_score 2,
    do_risk := pyRound risk.do_risk 2, nh3_risk := pyRound risk.nh3_risk 2,
    status := status }

/-- `forecast.build_forecast`.  Readings are fetched through `forecastRows`;
an empty window yields the no-data result; otherwise slopes are fitted on the
oldest-first rows, damped (DO and ammonia 0.7, temperature 0.3, pH 0.2), and
`steps = (hours * 60) / step_minutes` points are projected from the newest
reading; hours-at-status are accumulated per step and the summary rounds the
bucket hours to 1 decimal and re-expresses the damped slopes per hour. -/
def build_forecast (readings : List SensorReading) (pond_id : ℕ)
    (hours step_minutes lookback_hours max_points : ℕ) (now : ℤ) : Forecast :=
  let rows := forecastRows readings pond_id lookback_hours max_points now
  if rows.isEmpty then
    { pond_id := pond_id, generated_at := now, hours := hours,
      step_minutes := step_minutes, points := [],
      summary :=
        { message := some "No readings available yet. Start simulation to generate forecast.",
          critical_hours := 0, watch_hours := 0, good_hours := 0,
          do_slope_per_hour := none, nh3_slope_per_hour := none,
          temp_slope_per_hour := none, ph_slope_per_hour := none } }
  else
    let rows2 := rows.reverse
    let xs := metricXs rows2
    let do_ys := rows2.map (fun r => r.dissolved_oxygen)
    let nh3_ys := rows2.map (fun r => r.ammonia)
    let temp_ys := rows2.map (fun r => r.temperature)
    let ph_ys := rows2.map (fun r => r.ph)
    let do_slope := _linreg_slope xs do_ys * 0.7
    let nh3_slope := _linreg_slope xs nh3_ys * 0.7
    let temp_slope := _linreg_slope xs temp_ys * 0.3
    let ph_slope := _linreg_slope xs ph_ys * 0.2
    let last := rows2.getLastD default
    let steps := hours * 60 / step_minutes
    let points := (List.range steps).map (fun k =>
      forecastPoint now step_minutes last.dissolved_oxygen last.ammonia
        last.temperature last.ph do_slope nh3_slope temp_slope ph_slope (k + 1))
    let critical_hours := points.foldl
      (fun acc pt => if pt.status == "CRITICAL" then acc + (step_minutes : ℚ) / 60 else acc) 0
    let watch_hours := points.foldl
      (fun acc pt => if pt.status == "WATCH" then acc + (step_minutes : ℚ) / 60 else acc) 0
    let good_hours := points.foldl
      (fun acc pt => if pt.status == "GOOD" then acc + (step_minutes : ℚ) / 60 else acc) 0
    { pond_id := pond_id, generated_at := now, hours := hours,
      step_minutes := step_minutes, points := points,
      summary :=
        { message := none,
          critical_hours := pyRound critical_hours 1,
          watch_hours := pyRound watch_hours 1,
          good_hours := pyRound good_hours 1,
          do_slope_per_hour := some (pyRound (do_slope * 60) 4),
          nh3_slope_per_hour := some (pyRound (nh3_slope * 60) 5),
          temp_slope_per_hour := some (pyRound (temp_slope * 60) 4),
          ph_slope_per_hour := some (pyRound (ph_slope * 60) 5) } }

/-- The per-pond `_sim_running` flag dict of `main.py` (and
`running_simulations` of `simulator.py`), as an association list. -/
abbrev SimFlags := List (ℕ × Bool)

/-- `dict.get(pond_id, False)`. -/
def getFlag (s : SimFlags) (pond_id : ℕ) : Bool := (s.lookup pond_id).getD false

/-- Dict assignment `d[pond_id] = b`: replace the entry if the key is
present, append it otherwise. -/
def setFlag : SimFlags → ℕ → Bool → SimFlags
  | [], p, b => [(p, b)]
  | (q, c) :: rest, p, b =>
    if q = p then (p, b) :: rest else (q, c) :: setFlag rest p b

/-- `main._start_sim`: if the pond is already flagged running return `False`
without touching the state, else set the flag and return `True` (thread
spawning is outside the model). -/
def _start_sim (s : SimFlags) (pond_id : ℕ) : Bool × SimFlags :=
  if getFlag s pond_id then (false, s) else (true, setFlag s pond_id true)

/-- `main._stop_sim`: if the pond is not flagged running return `False`
without touching the state, else clear the flag and return `True`. -/
def _stop_sim (s : SimFlags) (pond_id : ℕ) : Bool × SimFlags :=
  if getFlag s pond_id then (true, setFlag s pond_id false) else (false, s)

/-- `simulator.start_simulation`: same flag discipline as `main._start_sim`. -/
def start_simulation (s : SimFlags) (pond_id : ℕ) : Bool × SimFlags :=
  if getFlag s pond_id then (false, s) else (true, setFlag s pond_id true)

/-- `simulator.stop_simulation`: unconditionally sets the flag to `False` and
returns `True`, even when no simulation is running. -/
def stop_simulation (s : SimFlags) (pond_id : ℕ) : Bool × SimFlags :=
  (true, setFlag s pond_id false)

/-- A pond as seeded by `main.startup`. -/
def demoPond : Pond := { id := 1, name := "Pond A", species := "fish" }

/-- A fresh database holding only `demoPond`. -/
def demoDB : DB :=
  { ponds := [demoPond], readings := [], alerts := [], next_reading_id := 1,
    next_alert_id := 1 }

/-- The spec's worked example payload: do=3.0, temp=29, ammonia=0.1, ph=7.0. -/
def demoPayload : ReadingCreate :=
  { pond_id := 1, dissolved_oxygen := 3, temperature := 29, ammonia := 1/10,
    ph := 7, turbidity := 12 }

/-- The reading persisted for `demoPayload` at time 0. -/
def demoReading : SensorReading :=
  { id := 1, pond_id := 1, dissolved_oxygen := 3, temperature := 29,
    ammonia := 1/10, ph := 7, turbidity := 12, health_score := 6292/125,
    do_risk := 80, nh3_risk := 104/25, created_at := 0 }

/-- The alert created for `demoPayload` at time 0 (do = 3 < 3.5). -/
def demoAlert : Alert :=
  { id := 1, pond_id := 1, message := "Critical: Dissolved Oxygen dangerously low",
    severity := "HIGH", resolved := false, created_at := 0, resolved_at := none }

/-- Database state after ingesting `demoPayload` into `demoDB` at time 0. -/
def demoDBAfter : DB :=
  { ponds := [demoPond], readings := [demoReading], alerts := [demoAlert],
    next_reading_id := 2, next_alert_id := 2 }

/-- Response dict of that ingest request. -/
def demoResponse : List (String × Json) :=
  [("ok", Json.b true), ("reading_id", Json.n 1), ("health_score", Json.n (6292/125))]

/-- The alert of `demoAlert` after being resolved at time 5. -/
def demoAlertResolved : Alert :=
  { id := 1, pond_id := 1, message := "Critical: Dissolved Oxygen dangerously low",
    severity := "HIGH", resolved := true, created_at := 0, resolved_at := some 5 }

/-- A reading far older than any lookback window (created 100000 s before
the epoch). -/
def staleReading : SensorReading :=
  { id := 1, pond_id := 1, dissolved_oxygen := 5, temperature := 29,
    ammonia := 1/10, ph := 7, turbidity := 12, health_score := 100,
    do_risk := 0, nh3_risk := 0, created_at := -100000 }

/-- A reading created 60 s before the epoch, inside any lookback window. -/
def freshReading : SensorReading :=
  { id := 1, pond_id := 1, dissolved_oxygen := 5, temperature := 29,
    ammonia := 1/10, ph := 7, turbidity := 12, health_score := 100,
    do_risk := 0, nh3_risk := 0, created_at := -60 }

lemma demo_ingest_eq :
    ingest_reading demoDB demoPayload 0 = Except.ok (demoDBAfter, demoResponse) := by
  norm_num [ingest_reading, pondExists, createAlerts, alertExistsRecent,
    dbAddAlert, alertNew, calculate_risk, _clamp, min_def, max_def, demoDB,
    demoPayload, demoPond, demoDBAfter, demoReading, demoAlert, demoResponse]

/-- C1 (counterexample): on the spec's worked example do=3.0, temp=29,
ammonia=0.1, ph=7.0 the code's `nh3_risk` is 104/25 = 4.16 (not 4, because
the temperature factor is 1.04, not 1) and its `health_score` is
6292/125 = 50.336 (not 50.4), so the claimed output values are false. -/
theorem c1_example_counterexample :
    (calculate_risk 3 29 (1/10) 7).do_risk = 80 ∧
    (calculate_risk 3 29 (1/10) 7).nh3_risk = 104/25 ∧
    (calculate_risk 3 29 (1/10) 7).health_score = 6292/125 ∧
    ((104 : ℚ)/25 = 4) = False ∧
    ((6292 : ℚ)/125 = 504/10) = False := by
  refine ⟨?_, ?_, ?_, eq_false (by norm_num), eq_false (by norm_num)⟩ <;>
    norm_num [calculate_risk, _clamp, min_def, max_def]

/-- C1 (amended): for do=3.0, temp=29, ammonia=0.1, ph=7.0, `calculate_risk`
returns do_risk = 80, nh3_risk = 4.16, health_score = 50.336 (and one HIGH
dissolved-oxygen alert message), and `status_from_health` of that health
score is WATCH. -/
theorem c1_example_amended :
    calculate_risk 3 29 (1/10) 7 =
      { health_score := 6292/125, do_risk := 80, nh3_risk := 104/25,
        messages := [("HIGH", "Critical: Dissolved Oxygen dangerously low")] } ∧
    status_from_health (calculate_risk 3 29 (1/10) 7).health_score = "WATCH" := by
  constructor <;>
    norm_num [calculate_risk, status_from_health, _clamp, min_def, max_def]

/-- C8: `status_from_health` maps every score ≥ 75 to GOOD, every score in
[50, 75) to WATCH and every score < 50 to CRITICAL, with exact boundaries:
75 → GOOD, 74.999 → WATCH, 50 → WATCH, 49.999 → CRITICAL. -/
theorem c8_status_boundaries :
    (∀ x : ℚ, 75 ≤ x → status_from_health x = "GOOD") ∧
    (∀ x : ℚ, 50 ≤ x → x < 75 → status_from_health x = "WATCH") ∧
    (∀ x : ℚ, x < 50 → status_from_health x = "CRITICAL") ∧
    status_from_health 75 = "GOOD" ∧
    status_from_health (74999/1000) = "WATCH" ∧
    status_from_health 50 = "WATCH" ∧
    status_from_health (49999/1000) = "CRITICAL" := by
  refine ⟨?_, ?_, ?_, ?_, ?_, ?_, ?_⟩
  · intro x hx; simp [status_from_health, hx]
  · intro x h1 h2
    have h3 : ¬ (75 ≤ x) := by linarith
    simp [status_from_health, h1, h3]
  · intro x h
    have h1 : ¬ (75 ≤ x) := by linarith
    have h2 : ¬ (50 ≤ x) := by linarith
    simp [status_from_health, h1, h2]
  all_goals norm_num [status_from_health]

/-- C8 (witness): the theorem applied at 80 yields GOOD. -/
theorem c8_status_boundaries_witness : status_from_health 80 = "GOOD" :=
  c8_status_boundaries.1 80 (by norm_num)

/-- C3 (counterexample): with no simulation running for pond 1,
`simulator.stop_simulation` still reports `True`, contradicting the claim
that stopping a non-running simulation reports stopped=false. -/
theorem c3_stop_counterexample :
    getFlag ([] : SimFlags) 1 = false ∧
    (stop_simulation ([] : SimFlags) 1).1 = true :=
  ⟨rfl, rfl⟩

/-- C3 (amended): in the `main.py` controller (the one wired to the
HTTP endpoints), starting an already-running simulation leaves the flag state
unchanged and reports started=false (and `simulator.start_simulation` agrees),
and stopping a non-running simulation reports stopped=false; the unused
`simulator.py` module's `stop_simulation`, however, always reports true. -/
theorem c3_sim_noop_amended :
    ∀ (s : SimFlags) (pond_id : ℕ),
      (getFlag s pond_id = true →
        _start_sim s pond_id = (false, s) ∧ start_simulation s pond_id = (false, s)) ∧
      (getFlag s pond_id = false → _stop_sim s pond_id = (false, s)) ∧
      (stop_simulation s pond_id).1 = true := by
  intro s pond_id
  refine ⟨?_, ?_, rfl⟩
  · intro h; constructor <;> simp [_start_sim, start_simulation, h]
  · intro h; simp [_stop_sim, h]

/-- C3 (witness): the amended theorem applied to the empty flag state. -/
theorem c3_sim_noop_witness : _stop_sim ([] : SimFlags) 1 = (false, []) :=
  (c3_sim_noop_amended [] 1).2.1 rfl

lemma messages_snd_nodup (do_ temp ammonia ph : ℚ) :
    ((calculate_risk do_ temp ammonia ph).messages.map Prod.snd).Nodup := by
  simp only [calculate_risk]
  split_ifs <;> simp

/-- C10: `calculate_risk` emits at most two alert messages — at most one
dissolved-oxygen message followed by at most one ammonia message — every
emitted severity is HIGH or MEDIUM, each severity is one of the values
admitted by the `Severity` schema type, and LOW is never produced. -/
theorem c10_messages_shape :
    ∀ do_ temp ammonia ph : ℚ,
      ((calculate_risk do_ temp ammonia ph).messages.length ≤ 2) ∧
      (((calculate_risk do_ temp ammonia ph).messages.filter
          (fun p => doMessages.contains p.2)).length ≤ 1) ∧
      (((calculate_risk do_ temp ammonia ph).messages.filter
          (fun p => ammoniaMessages.contains p.2)).length ≤ 1) ∧
      ((calculate_risk do_ temp ammonia ph).messages =
        (calculate_risk do_ temp ammonia ph).messages.filter
          (fun p => doMessages.contains p.2) ++
        (calculate_risk do_ temp ammonia ph).messages.filter
          (fun p => ammoniaMessages.contains p.2)) ∧
      (∀ p ∈ (calculate_risk do_ temp ammonia ph).messages,
        Severity.contains p.1 = true ∧ (p.1 = "HIGH" ∨ p.1 = "MEDIUM") ∧
        (p.1 = "LOW") = False) := by
  intro do_ temp ammonia ph
  simp only [calculate_risk]
  split_ifs <;> simp [doMessages, ammoniaMessages, Severity]

/-- C10 (witness): at do=3, temp=29, ammonia=0.1, ph=7 the HIGH
dissolved-oxygen message is emitted and satisfies the severity facts. -/
theorem c10_messages_shape_witness :
    Severity.contains "HIGH" = true ∧ ("HIGH" = "HIGH" ∨ "HIGH" = "MEDIUM") ∧
    (("HIGH" : String) = "LOW") = False :=
  (c10_messages_shape 3 29 (1/10) 7).2.2.2.2
    ("HIGH", "Critical: Dissolved Oxygen dangerously low")
    (by norm_num [calculate_risk, _clamp, min_def, max_def])

lemma _clamp_bounds (x lo hi : ℚ) (h : lo ≤ hi) :
    lo ≤ _clamp x lo hi ∧ _clamp x lo hi ≤ hi :=
  ⟨le_max_left _ _, max_le h (min_le_left _ _)⟩

lemma createAlerts_readings (pond_id : ℕ) (now : ℤ) :
    ∀ (msgs : List (String × String)) (db : DB),
      (createAlerts db pond_id now msgs).readings = db.readings := by
  intro msgs
  induction msgs with
  | nil => intro db; rfl
  | cons hd tl ih =>
    intro db
    obtain ⟨sev, msg⟩ := hd
    simp only [createAlerts]
    by_cases hex : alertExistsRecent db.alerts pond_id msg now <;>
      simp [hex, ih, dbAddAlert]

lemma createAlerts_ponds (pond_id : ℕ) (now : ℤ) :
    ∀ (msgs : List (String × String)) (db : DB),
      (createAlerts db pond_id now msgs).ponds = db.ponds := by
  intro msgs
  induction msgs with
  | nil => intro db; rfl
  | cons hd tl ih =>
    intro db
    obtain ⟨sev, msg⟩ := hd
    simp only [createAlerts]
    by_cases hex : alertExistsRecent db.alerts pond_id msg now <;>
      simp [hex, ih, dbAddAlert]

/-- C9: for every rational input, the risk evaluator's three derived outputs
lie in [0, 100]; and every successful ingestion appends exactly one reading
that stores the submitted measurements and these derived values unchanged,
so stored readings inherit the range invariant. -/
theorem c9_ranges_and_persistence :
    (∀ do_ temp ammonia ph : ℚ,
      (0 ≤ (calculate_risk do_ temp ammonia ph).health_score ∧
        (calculate_risk do_ temp ammonia ph).health_score ≤ 100) ∧
      (0 ≤ (calculate_risk do_ temp ammonia ph).do_risk ∧
        (calculate_risk do_ temp ammonia ph).do_risk ≤ 100) ∧
      (0 ≤ (calculate_risk do_ temp ammonia ph).nh3_risk ∧
        (calculate_risk do_ temp ammonia ph).nh3_risk ≤ 100)) ∧
    (∀ (db : DB) (payload : ReadingCreate) (now : ℤ)
        (r : DB × List (String × Json)),
      ingest_reading db payload now = Except.ok r →
      r.1.readings = db.readings ++
        [{ id := db.next_reading_id, pond_id := payload.pond_id,
           dissolved_oxygen := payload.dissolved_oxygen,
           temperature := payload.temperature, ammonia := payload.ammonia,
           ph := payload.ph, turbidity := payload.turbidity,
           health_score := (calculate_risk payload.dissolved_oxygen
             payload.temperature payload.ammonia payload.ph).health_score,
           do_risk := (calculate_risk payload.dissolved_oxygen
             payload.temperature payload.ammonia payload.ph).do_risk,
           nh3_risk := (calculate_risk payload.dissolved_oxygen
             payload.temperature payload.ammonia payload.ph).nh3_risk,
           created_at := now }]) := by
  constructor
  · intro do_ temp ammonia ph
    refine ⟨?_, ?_, ?_⟩
    · simpa [calculate_risk] using _clamp_bounds
        (100 - (0.6 * (if do_ < 5 then _clamp ((5 - do_) / 1.5 * 60) 0 100 else 0) +
          0.4 * _clamp ((max 0 (ammonia * (1 + (ph - 7) * 0.35) *
            (1 + (temp - 28) * 0.04))) * 40) 0 100)) 0 100 (by norm_num)
    · by_cases h : do_ < 5
      · simpa [calculate_risk, h] using
          _clamp_bounds ((5 - do_) / 1.5 * 60) 0 100 (by norm_num)
      · simp [calculate_risk, h]
    · simpa [calculate_risk] using _clamp_bounds
        ((max 0 (ammonia * (1 + (ph - 7) * 0.35) * (1 + (temp - 28) * 0.04))) * 40)
        0 100 (by norm_num)
  · intro db payload now r h
    by_cases hp : pondExists db payload.pond_id
    · simp only [ingest_reading, hp, if_true] at h
      obtain ⟨hdb, -⟩ := Prod.mk.injEq .. ▸ (Except.ok.injEq .. ▸ h)
      rw [← hdb, createAlerts_readings]
    · simp [ingest_reading, hp] at h

/-- C9 (witness): the persistence clause applied to the concrete demo ingest. -/
theorem c9_ranges_and_persistence_witness :
    demoDBAfter.readings = demoDB.readings ++
      [{ id := demoDB.next_reading_id, pond_id := demoPayload.pond_id,
         dissolved_oxygen := demoPayload.dissolved_oxygen,
         temperature := demoPayload.temperature, ammonia := demoPayload.ammonia,
         ph := demoPayload.ph, turbidity := demoPayload.turbidity,
         health_score := (calculate_risk demoPayload.dissolved_oxygen
           demoPayload.temperature demoPayload.ammonia demoPayload.ph).health_score,
         do_risk := (calculate_risk demoPayload.dissolved_oxygen
           demoPayload.temperature demoPayload.ammonia demoPayload.ph).do_risk,
         nh3_risk := (calculate_risk demoPayload.dissolved_oxygen
           demoPayload.temperature demoPayload.ammonia demoPayload.ph).nh3_risk,
         created_at := 0 }] :=
  c9_ranges_and_persistence.2 demoDB demoPayload 0 (demoDBAfter, demoResponse)
    demo_ingest_eq

/-- C2 (counterexample): a successful ingest of the worked-example reading
returns the dict with keys "ok", "reading_id" and "health_score" only — no
"status" key — refuting the claim that the status is part of the response. -/
theorem c2_response_counterexample :
    responseOf (ingest_reading demoDB demoPayload 0) = some demoResponse ∧
    (demoResponse.map Prod.fst) = ["ok", "reading_id", "health_score"] ∧
    ((demoResponse.map Prod.fst).contains "status") = false := by
  refine ⟨?_, rfl, rfl⟩
  rw [demo_ingest_eq]; rfl

/-- C2 (amended): every successful reading ingestion returns a dict holding
exactly an "ok" flag, the new reading's identifier and its health score; the
status category is not part of the response. -/
theorem c2_response_fields :
    ∀ (db : DB) (payload : ReadingCreate) (now : ℤ),
      pondExists db payload.pond_id = true →
      responseOf (ingest_reading db payload now) =
        some [("ok", Json.b true), ("reading_id", Json.n db.next_reading_id),
          ("health_score", Json.n (calculate_risk payload.dissolved_oxygen
            payload.temperature payload.ammonia payload.ph).health_score)] ∧
      (responseOf (ingest_reading db payload now)).map (fun l => l.map Prod.fst) =
        some ["ok", "reading_id", "health_score"] := by
  intro db payload now hp
  constructor <;> simp [responseOf, ingest_reading, hp]

/-- C2 (witness): the amended theorem applied to the demo ingest. -/
theorem c2_response_fields_witness :
    (responseOf (ingest_reading demoDB demoPayload 0)).map (fun l => l.map Prod.fst) =
      some ["ok", "reading_id", "health_score"] :=
  (c2_response_fields demoDB demoPayload 0 rfl).2

lemma find?_map_congr {α : Type} (f : α → α) (p : α → Bool)
    (hp : ∀ x, p (f x) = p x) :
    ∀ l : List α, (l.map f).find? p = (l.find? p).map f := by
  intro l
  induction l with
  | nil => rfl
  | cons x xs ih =>
    simp only [List.map_cons, List.find?_cons, hp x]
    cases hx : p x <;> simp [ih]

/-- C5: resolving is idempotent. An already-resolved alert is returned
unchanged (table and `resolved_at` untouched); an unresolved alert is flipped
to resolved with `resolved_at` set to the current time and all other fields
kept; and resolving twice returns exactly the state of resolving once. -/
theorem c5_resolve_idempotent :
    (∀ (alerts : List Alert) (alert_id : ℕ) (now : ℤ) (a : Alert),
      alerts.find? (fun b => b.id == alert_id) = some a → a.resolved = true →
      resolve_alert alerts alert_id now = some (alerts, a)) ∧
    (∀ (alerts : List Alert) (alert_id : ℕ) (now : ℤ) (a : Alert),
      alerts.find? (fun b => b.id == alert_id) = some a → a.resolved = false →
      resolve_alert alerts alert_id now =
        some (alerts.map (fun b => if b.id == alert_id then
            { a with resolved := true, resolved_at := some now } else b),
          { a with resolved := true, resolved_at := some now })) ∧
    (∀ (alerts : List Alert) (alert_id : ℕ) (t1 t2 : ℤ)
        (r : List Alert × Alert),
      resolve_alert alerts alert_id t1 = some r →
      resolve_alert r.1 alert_id t2 = some r) := by
  refine ⟨?_, ?_, ?_⟩
  · intro alerts alert_id now a hf hr
    simp [resolve_alert, hf, hr]
  · intro alerts alert_id now a hf hr
    simp [resolve_alert, hf, hr]
  · intro alerts alert_id t1 t2 r h
    rcases hf : alerts.find? (fun b => b.id == alert_id) with _ | a
    · simp [resolve_alert, hf] at h
    · have hid : a.id = alert_id := by
        simpa using List.find?_some hf
      by_cases hr : a.resolved
      · simp only [resolve_alert, hf, hr, if_true, Option.some.injEq] at h
        subst h
        simp [resolve_alert, hf, hr]
      · simp only [resolve_alert, hf, hr, if_false, Bool.false_eq_true,
          Option.some.injEq] at h
        subst h
        have hmap : (alerts.map (fun b => if b.id == alert_id then
            { a with resolved := true, resolved_at := some t1 } else b)).find?
              (fun b => b.id == alert_id) =
            some { a with resolved := true, resolved_at := some t1 } := by
          rw [find?_map_congr]
          · rw [hf]
            simp [hid]
          · intro x
            by_cases hx : x.id = alert_id <;> simp [hx, hid]
        simp only [resolve_alert]
        rw [hmap]
        simp

/-- C5 (witness): resolving the already-resolved demo alert again (at a later
time) returns the same table and the same alert, `resolved_at` included. -/
theorem c5_resolve_idempotent_witness :
    resolve_alert [demoAlertResolved] 1 9 = some ([demoAlertResolved], demoAlertResolved) :=
  c5_resolve_idempotent.2.2 [demoAlert] 1 5 9 ([demoAlertResolved], demoAlertResolved)
    (by decide)

/-- C6: when the pond has no stored readings in the lookback window, the
forecast engine returns (it cannot raise: the embedding is a total function,
as is the source branch) a result with an empty points list, a zeroed summary
(critical_hours = watch_hours = good_hours = 0) and the explanatory no-data
message. -/
theorem c6_forecast_empty :
    ∀ (readings : List SensorReading)
      (pond_id hours step_minutes lookback_hours max_points : ℕ) (now : ℤ),
      readings.filter (fun r => r.pond_id == pond_id &&
        decide (now - (lookback_hours : ℤ) * 3600 ≤ r.created_at)) = [] →
      build_forecast readings pond_id hours step_minutes lookback_hours
          max_points now =
        { pond_id := pond_id, generated_at := now, hours := hours,
          step_minutes := step_minutes, points := [],
          summary :=
            { message := some "No readings available yet. Start simulation to generate forecast.",
              critical_hours := 0, watch_hours := 0, good_hours := 0,
              do_slope_per_hour := none, nh3_slope_per_hour := none,
              temp_slope_per_hour := none, ph_slope_per_hour := none } } := by
  intro readings pond_id hours step_minutes lookback_hours max_points now h
  have hrows : forecastRows readings pond_id lookback_hours max_points now = [] := by
    unfold forecastRows
    rw [h]
    show ([] : List SensorReading).take max_points = []
    simp
  simp [build_forecast, hrows]

/-- C6 (witness): the theorem applied to a pond whose only reading is
outside the 6-hour lookback window. -/
theorem c6_forecast_empty_witness :
    build_forecast [staleReading] 1 24 60 6 360 0 =
      { pond_id := 1, generated_at := 0, hours := 24, step_minutes := 60,
        points := [],
        summary :=
          { message := some "No readings available yet. Start simulation to generate forecast.",
            critical_hours := 0, watch_hours := 0, good_hours := 0,
            do_slope_per_hour := none, nh3_slope_per_hour := none,
            temp_slope_per_hour := none, ph_slope_per_hour := none } } :=
  c6_forecast_empty [staleReading] 1 24 60 6 360 0
    (by simp [staleReading])

lemma countUnresolved_append (xs ys : List Alert) (p : ℕ) (m : String) :
    countUnresolved (xs ++ ys) p m = countUnresolved xs p m + countUnresolved ys p m := by
  simp [countUnresolved, List.filter_append]

lemma countUnresolved_single_match (a : Alert) (p : ℕ) (m : String)
    (hp : a.pond_id = p) (hm : a.message = m) (hr : a.resolved = false) :
    countUnresolved [a] p m = 1 := by
  simp [countUnresolved, isUnresolvedMatch, hp, hm, hr]

lemma countUnresolved_single_nomatch (a : Alert) (p : ℕ) (m : String)
    (hm : a.message ≠ m) :
    countUnresolved [a] p m = 0 := by
  simp [countUnresolved, isUnresolvedMatch, hm]

lemma alertExistsRecent_false_of_count_zero (alerts : List Alert) (p : ℕ)
    (m : String) (now : ℤ) (h : countUnresolved alerts p m = 0) :
    alertExistsRecent alerts p m now = false := by
  cases hax : alertExistsRecent alerts p m now
  · rfl
  · exfalso
    obtain ⟨a, ha, hpred⟩ := List.any_eq_true.mp hax
    have hmatch : isUnresolvedMatch a p m = true := by
      simp only [isRecentUnresolvedMatch, Bool.and_eq_true] at hpred
      exact hpred.1
    have hmem : a ∈ alerts.filter (fun a => isUnresolvedMatch a p m) :=
      List.mem_filter.mpr ⟨ha, hmatch⟩
    have hne : alerts.filter (fun a => isUnresolvedMatch a p m) ≠ [] :=
      List.ne_nil_of_mem hmem
    have : countUnresolved alerts p m ≠ 0 := by
      simpa [countUnresolved, List.length_eq_zero] using hne
    exact this h

lemma createAlerts_alerts_ext (p : ℕ) (now : ℤ) :
    ∀ (msgs : List (String × String)) (db : DB),
      ∃ ext : List Alert,
        (createAlerts db p now msgs).alerts = db.alerts ++ ext ∧
        ∀ a ∈ ext, a.pond_id = p ∧ a.created_at = now ∧ a.resolved = false ∧
          a.message ∈ msgs.map Prod.snd := by
  intro msgs
  induction msgs with
  | nil => intro db; exact ⟨[], by simp [createAlerts], by simp⟩
  | cons hd tl ih =>
    intro db
    obtain ⟨sev, msg⟩ := hd
    simp only [createAlerts]
    by_cases hex : alertExistsRecent db.alerts p msg now = true
    · rw [if_pos hex]
      obtain ⟨ext, he, hprop⟩ := ih db
      refine ⟨ext, he, fun a ha => ?_⟩
      obtain ⟨h1, h2, h3, h4⟩ := hprop a ha
      exact ⟨h1, h2, h3, by simp only [List.map_cons]; exact List.mem_cons_of_mem _ h4⟩
    · rw [if_neg hex]
      obtain ⟨ext, he, hprop⟩ := ih (dbAddAlert db p sev msg now)
      refine ⟨alertNew db p sev msg now :: ext, ?_, ?_⟩
      · rw [he]
        simp [dbAddAlert]
      · intro a ha
        rcases List.mem_cons.mp ha with h | h
        · subst h
          exact ⟨rfl, rfl, rfl, by simp [alertNew]⟩
        · obtain ⟨h1, h2, h3, h4⟩ := hprop a h
          exact ⟨h1, h2, h3, by simp only [List.map_cons]; exact List.mem_cons_of_mem _ h4⟩

lemma createAlerts_count_notmem (p : ℕ) (now : ℤ) (m : String)
    (msgs : List (String × String)) (db : DB) (hm : m ∉ msgs.map Prod.snd) :
    countUnresolved (createAlerts db p now msgs).alerts p m =
      countUnresolved db.alerts p m := by
  obtain ⟨ext, he, hprop⟩ := createAlerts_alerts_ext p now msgs db
  rw [he, countUnresolved_append]
  have hzero : countUnresolved ext p m = 0 := by
    have hfil : ext.filter (fun a => isUnresolvedMatch a p m) = [] := by
      rw [List.filter_eq_nil_iff]
      intro a ha hmatch
      obtain ⟨-, -, -, h4⟩ := hprop a ha
      have hmsg : a.message = m := by
        simp only [isUnresolvedMatch, Bool.and_eq_true, beq_iff_eq] at hmatch
        exact hmatch.1.2
      exact hm (hmsg ▸ h4)
    simp [countUnresolved, hfil]
  rw [hzero, add_zero]

lemma createAlerts_creates (p : ℕ) (now : ℤ) (m : String) :
    ∀ (msgs : List (String × String)) (db : DB),
      m ∈ msgs.map Prod.snd → (msgs.map Prod.snd).Nodup →
      countUnresolved db.alerts p m = 0 →
      countUnresolved (createAlerts db p now msgs).alerts p m = 1 ∧
      ∃ a ∈ (createAlerts db p now msgs).alerts,
        a.pond_id = p ∧ a.message = m ∧ a.resolved = false ∧
        a.created_at = now := by
  intro msgs
  induction msgs with
  | nil => intro db hmem; simp at hmem
  | cons hd tl ih =>
    intro db hmem hnd hcount
    obtain ⟨sev, msg⟩ := hd
    rw [List.map_cons] at hmem hnd
    rw [List.nodup_cons] at hnd
    obtain ⟨hnotin, hndtl⟩ := hnd
    simp only [createAlerts]
    by_cases hmm : msg = m
    · subst hmm
      have hex : alertExistsRecent db.alerts p msg now = false :=
        alertExistsRecent_false_of_count_zero _ _ _ _ hcount
      rw [if_neg (by simp [hex])]
      have hcount1 : countUnresolved (dbAddAlert db p sev msg now).alerts p msg = 1 := by
        show countUnresolved (db.alerts ++ [alertNew db p sev msg now]) p msg = 1
        rw [countUnresolved_append, hcount,
          countUnresolved_single_match (alertNew db p sev msg now) p msg rfl rfl rfl]
      constructor
      · rw [createAlerts_count_notmem p now msg tl _ hnotin]
        exact hcount1
      · obtain ⟨ext, he, -⟩ := createAlerts_alerts_ext p now tl (dbAddAlert db p sev msg now)
        refine ⟨alertNew db p sev msg now, ?_, rfl, rfl, rfl, rfl⟩
        rw [he]
        apply List.mem_append_left
        show alertNew db p sev msg now ∈ db.alerts ++ [alertNew db p sev msg now]
        simp
    · have hmem' : m ∈ tl.map Prod.snd := by
        rcases List.mem_cons.mp hmem with h | h
        · exact absurd h.symm hmm
        · exact h
      by_cases hex : alertExistsRecent db.alerts p msg now = true
      · rw [if_pos hex]
        exact ih db hmem' hndtl hcount
      · rw [if_neg hex]
        refine ih _ hmem' hndtl ?_
        show countUnresolved (db.alerts ++ [alertNew db p sev msg now]) p m = 0
        rw [countUnresolved_append, hcount,
          countUnresolved_single_nomatch (alertNew db p sev msg now) p m hmm]

lemma createAlerts_suppress (p : ℕ) (now : ℤ) (m : String) :
    ∀ (msgs : List (String × String)) (db : DB),
      (∃ a ∈ db.alerts, isRecentUnresolvedMatch a p m now = true) →
      countUnresolved (createAlerts db p now msgs).alerts p m =
        countUnresolved db.alerts p m := by
  intro msgs
  induction msgs with
  | nil => intro db _; rfl
  | cons hd tl ih =>
    intro db hw
    obtain ⟨sev, msg⟩ := hd
    simp only [createAlerts]
    by_cases hex : alertExistsRecent db.alerts p msg now = true
    · rw [if_pos hex]
      exact ih db hw
    · rw [if_neg hex]
      have hmm : msg ≠ m := by
        intro heq; subst heq
        obtain ⟨a, ha, hmatch⟩ := hw
        exact hex (List.any_eq_true.mpr ⟨a, ha, hmatch⟩)
      have hw' : ∃ a ∈ (dbAddAlert db p sev msg now).alerts,
          isRecentUnresolvedMatch a p m now = true := by
        obtain ⟨a, ha, hmatch⟩ := hw
        exact ⟨a, List.mem_append_left _ ha, hmatch⟩
      rw [ih _ hw']
      show countUnresolved (db.alerts ++ [alertNew db p sev msg now]) p m =
        countUnresolved db.alerts p m
      rw [countUnresolved_append,
        countUnresolved_single_nomatch (alertNew db p sev msg now) p m hmm,
        add_zero]

lemma ingestDB_alerts (db : DB) (payload : ReadingCreate) (now : ℤ)
    (hp : pondExists db payload.pond_id = true) :
    ∃ dbR : DB,
      ingestDB db payload now = createAlerts dbR payload.pond_id now
        (calculate_risk payload.dissolved_oxygen payload.temperature
          payload.ammonia payload.ph).messages ∧
      dbR.alerts = db.alerts ∧ dbR.ponds = db.ponds := by
  refine ⟨{ db with
    readings := db.readings ++
      [{ id := db.next_reading_id, pond_id := payload.pond_id,
         dissolved_oxygen := payload.dissolved_oxygen,
         temperature := payload.temperature, ammonia := payload.ammonia,
         ph := payload.ph, turbidity := payload.turbidity,
         health_score := (calculate_risk payload.dissolved_oxygen
           payload.temperature payload.ammonia payload.ph).health_score,
         do_risk := (calculate_risk payload.dissolved_oxygen
           payload.temperature payload.ammonia payload.ph).do_risk,
         nh3_risk := (calculate_risk payload.dissolved_oxygen
           payload.temperature payload.ammonia payload.ph).nh3_risk,
         created_at := now }],
    next_reading_id := db.next_reading_id + 1 }, ?_, rfl, rfl⟩
  simp [ingestDB, ingest_reading, hp]

/-- C4: if the database holds no unresolved alert with a given pond and
message, and two ingestions of an identical alert-triggering reading for
that pond are processed sequentially at times within the same 10-minute
window, then afterwards exactly one unresolved alert with that message
exists for that pond: the second ingestion's candidate alert is suppressed
by the existence check on (same pond, same message, resolved=false, created
within the last 10 minutes). -/
theorem c4_alert_dedup :
    ∀ (db : DB) (payload : ReadingCreate) (t1 t2 : ℤ) (sev m : String),
      pondExists db payload.pond_id = true →
      (sev, m) ∈ (calculate_risk payload.dissolved_oxygen payload.temperature
        payload.ammonia payload.ph).messages →
      countUnresolved db.alerts payload.pond_id m = 0 →
      t1 ≤ t2 → t2 ≤ t1 + 600 →
      countUnresolved (ingestDB (ingestDB db payload t1) payload t2).alerts
        payload.pond_id m = 1 := by
  intro db payload t1 t2 sev m hp hmem hcount h12 h21
  have hmem' : m ∈ ((calculate_risk payload.dissolved_oxygen
      payload.temperature payload.ammonia payload.ph).messages.map Prod.snd) :=
    List.mem_map.mpr ⟨(sev, m), hmem, rfl⟩
  have hnd := messages_snd_nodup payload.dissolved_oxygen payload.temperature
    payload.ammonia payload.ph
  obtain ⟨dbR1, he1, ha1, hpo1⟩ := ingestDB_alerts db payload t1 hp
  rw [he1]
  have hcount1 : countUnresolved dbR1.alerts payload.pond_id m = 0 := by
    rw [ha1]; exact hcount
  obtain ⟨hc1, a, hamem, hap, ham, har, hat⟩ :=
    createAlerts_creates payload.pond_id t1 m _ dbR1 hmem' hnd hcount1
  have hp1 : pondExists (createAlerts dbR1 payload.pond_id t1
      (calculate_risk payload.dissolved_oxygen payload.temperature
        payload.ammonia payload.ph).messages) payload.pond_id = true := by
    unfold pondExists
    rw [createAlerts_ponds, hpo1]
    exact hp
  obtain ⟨dbR2, he2, ha2, hpo2⟩ := ingestDB_alerts _ payload t2 hp1
  rw [he2]
  have hw : ∃ b ∈ dbR2.alerts,
      isRecentUnresolvedMatch b payload.pond_id m t2 = true := by
    refine ⟨a, ?_, ?_⟩
    · rw [ha2]; exact hamem
    · simp only [isRecentUnresolvedMatch, isUnresolvedMatch, Bool.and_eq_true,
        beq_iff_eq, decide_eq_true_eq]
      refine ⟨⟨⟨hap, ham⟩, by simp [har]⟩, ?_⟩
      rw [hat]
      omega
  rw [createAlerts_suppress payload.pond_id t2 m _ dbR2 hw, ha2]
  exact hc1

/-- C4 (witness): two ingests of the worked-example reading (do = 3 triggers
the HIGH dissolved-oxygen alert) at times 0 and 300 s leave exactly one
unresolved alert with that message. -/
theorem c4_alert_dedup_witness :
    countUnresolved (ingestDB (ingestDB demoDB demoPayload 0) demoPayload 300).alerts
      demoPayload.pond_id "Critical: Dissolved Oxygen dangerously low" = 1 :=
  c4_alert_dedup demoDB demoPayload 0 300 "HIGH"
    "Critical: Dissolved Oxygen dangerously low" rfl
    (by norm_num [calculate_risk, _clamp, min_def, max_def, demoPayload])
    rfl (by norm_num) (by norm_num)

lemma build_forecast_points_eq (readings : List SensorReading)
    (pond_id hours step_minutes lookback_hours max_points : ℕ) (now : ℤ)
    (hne : forecastRows readings pond_id lookback_hours max_points now ≠ []) :
    (build_forecast readings pond_id hours step_minutes lookback_hours
        max_points now).points =
      (List.range (hours * 60 / step_minutes)).map (fun k =>
        forecastPoint now step_minutes
          (((forecastRows readings pond_id lookback_hours max_points now).reverse.getLastD default).dissolved_oxygen)
          (((forecastRows readings pond_id lookback_hours max_points now).reverse.getLastD default).ammonia)
          (((forecastRows readings pond_id lookback_hours max_points now).reverse.getLastD default).temperature)
          (((forecastRows readings pond_id lookback_hours max_points now).reverse.getLastD default).ph)
          (_linreg_slope (metricXs (forecastRows readings pond_id lookback_hours max_points now).reverse)
            ((forecastRows readings pond_id lookback_hours max_points now).reverse.map
              (fun r => r.dissolved_oxygen)) * 0.7)
          (_linreg_slope (metricXs (forecastRows readings pond_id lookback_hours max_points now).reverse)
            ((forecastRows readings pond_id lookback_hours max_points now).reverse.map
              (fun r => r.ammonia)) * 0.7)
          (_linreg_slope (metricXs (forecastRows readings pond_id lookback_hours max_points now).reverse)
            ((forecastRows readings pond_id lookback_hours max_points now).reverse.map
              (fun r => r.temperature)) * 0.3)
          (_linreg_slope (metricXs (forecastRows readings pond_id lookback_hours max_points now).reverse)
            ((forecastRows readings pond_id lookback_hours max_points now).reverse.map
              (fun r => r.ph)) * 0.2)
          (k + 1)) := by
  have hemp : (forecastRows readings pond_id lookback_hours max_points now).isEmpty = false := by
    cases h : forecastRows readings pond_id lookback_hours max_points now
    · exact absurd h hne
    · rfl
  simp only [build_forecast, hemp, Bool.false_eq_true, if_false]

/-- C7: for a non-empty fetched history, the forecast contains exactly
`steps = (hours * 60) / step_minutes` points (integer division); the i-th
point (i = 1..steps) is built from the last reading's values with the fitted
per-minute slopes damped to 70% for dissolved oxygen, 70% for ammonia, 30%
for temperature and 20% for pH; and each projected metric is
`last_value + damped_slope * (i * step_minutes)` clamped to DO [0.2,12],
ammonia [0,3], temperature [10,40], pH [6,9.5] (the emitted point rounds the
clamped value to the source's display precision). -/
theorem c7_forecast_projection :
    ∀ (readings : List SensorReading)
      (pond_id hours step_minutes lookback_hours max_points : ℕ) (now : ℤ),
      0 < step_minutes →
      forecastRows readings pond_id lookback_hours max_points now ≠ [] →
      ((build_forecast readings pond_id hours step_minutes lookback_hours
          max_points now).points.length = hours * 60 / step_minutes) ∧
      ((build_forecast readings pond_id hours step_minutes lookback_hours
          max_points now).points =
        (List.range (hours * 60 / step_minutes)).map (fun k =>
          forecastPoint now step_minutes
            (((forecastRows readings pond_id lookback_hours max_points now).reverse.getLastD default).dissolved_oxygen)
            (((forecastRows readings pond_id lookback_hours max_points now).reverse.getLastD default).ammonia)
            (((forecastRows readings pond_id lookback_hours max_points now).reverse.getLastD default).temperature)
            (((forecastRows readings pond_id lookback_hours max_points now).reverse.getLastD default).ph)
            (_linreg_slope (metricXs (forecastRows readings pond_id lookback_hours max_points now).reverse)
              ((forecastRows readings pond_id lookback_hours max_points now).reverse.map
                (fun r => r.dissolved_oxygen)) * 0.7)
            (_linreg_slope (metricXs (forecastRows readings pond_id lookback_hours max_points now).reverse)
              ((forecastRows readings pond_id lookback_hours max_points now).reverse.map
                (fun r => r.ammonia)) * 0.7)
            (_linreg_slope (metricXs (forecastRows readings pond_id lookback_hours max_points now).reverse)
              ((forecastRows readings pond_id lookback_hours max_points now).reverse.map
                (fun r => r.temperature)) * 0.3)
            (_linreg_slope (metricXs (forecastRows readings pond_id lookback_hours max_points now).reverse)
              ((forecastRows readings pond_id lookback_hours max_points now).reverse.map
                (fun r => r.ph)) * 0.2)
            (k + 1))) ∧
      (∀ (n : ℤ) (sm i : ℕ) (bdo bnh3 btemp bph sdo snh3 stemp sph : ℚ),
        (forecastPoint n sm bdo bnh3 btemp bph sdo snh3 stemp sph i).dissolved_oxygen =
          pyRound (_clamp (bdo + sdo * ((i : ℚ) * (sm : ℚ))) 0.2 12) 3 ∧
        (forecastPoint n sm bdo bnh3 btemp bph sdo snh3 stemp sph i).ammonia =
          pyRound (_clamp (bnh3 + snh3 * ((i : ℚ) * (sm : ℚ))) 0 3) 4 ∧
        (forecastPoint n sm bdo bnh3 btemp bph sdo snh3 stemp sph i).temperature =
          pyRound (_clamp (btemp + stemp * ((i : ℚ) * (sm : ℚ))) 10 40) 2 ∧
        (forecastPoint n sm bdo bnh3 btemp bph sdo snh3 stemp sph i).ph =
          pyRound (_clamp (bph + sph * ((i : ℚ) * (sm : ℚ))) 6 9.5) 2) := by
  intro readings pond_id hours step_minutes lookback_hours max_points now hstep hne
  refine ⟨?_, build_forecast_points_eq readings pond_id hours step_minutes
    lookback_hours max_points now hne, ?_⟩
  · rw [build_forecast_points_eq readings pond_id hours step_minutes
      lookback_hours max_points now hne]
    simp
  · intro n sm i bdo bnh3 btemp bph sdo snh3 stemp sph
    exact ⟨rfl, rfl, rfl, rfl⟩

/-- C7 (witness): a 24-hour forecast with 60-minute steps over a one-reading
history has exactly 24 * 60 / 60 = 24 points. -/
theorem c7_forecast_projection_witness :
    (build_forecast [freshReading] 1 24 60 6 360 0).points.length = 24 * 60 / 60 :=
  (c7_forecast_projection [freshReading] 1 24 60 6 360 0 (by norm_num)
    (by simp [forecastRows, sortDesc, insertDesc, freshReading])).1
